import Mathlib

/-!
Shallow embedding of the SERunner backend core (gear availability and loans,
subscription quota checks, performer-match scoring, generator-response
normalization, and the setup generation/refresh endpoints), together with
theorems settling the specification claims about it.

Python integers are modelled as `Int`, Python float scores as `ℚ` (every score
in the matching code is a small exact rational), Python strings as `String`,
and fallible operations as `Except`.
-/

namespace SERunner

instance instDecEqExcept {ε α : Type} [DecidableEq ε] [DecidableEq α] :
    DecidableEq (Except ε α) := fun a b =>
  match a, b with
  | .ok x, .ok y =>
    if h : x = y then isTrue (by rw [h]) else isFalse (by intro hc; injection hc; contradiction)
  | .error x, .error y =>
    if h : x = y then isTrue (by rw [h]) else isFalse (by intro hc; injection hc; contradiction)
  | .ok _, .error _ => isFalse (by intro hc; injection hc)
  | .error _, .ok _ => isFalse (by intro hc; injection hc)

/-- One performer row, modelling the Python dicts handled by
`calculate_performer_match`: `p.get('type', '')` and `p.get('count', 1)` with
the defaults already applied. -/
structure Performer where
  ptype : String
  count : Int
deriving DecidableEq, Repr

/-! ## Gear and loans (src/backend/app/routers/gear.py) -/

/-- A gear loan row, reduced to the fields the availability computation and
`create_loan` read: `quantity_loaned` and `is_returned`. -/
structure GearLoan where
  quantity_loaned : Int
  is_returned : Bool
deriving DecidableEq, Repr

/-- A gear row with its loan relationship, reduced to the fields the
availability computation reads. -/
structure Gear where
  quantity : Int
  loans : List GearLoan
deriving DecidableEq, Repr

/-- Model of `active_loans = [loan for loan in gear.loans if not loan.is_returned]`
(gear.py, `get_gear` / `get_gear_item` / `create_loan`). -/
def activeLoans (g : Gear) : List GearLoan :=
  g.loans.filter (fun l => !l.is_returned)

/-- Model of `loaned_qty = sum(loan.quantity_loaned for loan in active_loans)`. -/
def loanedQty (g : Gear) : Int :=
  (activeLoans g).foldl (fun acc l => acc + l.quantity_loaned) 0

/-- Model of `quantity_available = gear.quantity - loaned_qty` as computed by
`get_gear` (gear.py lines 112-148) and `get_gear_item` (lines 196-203). -/
def quantityAvailable (g : Gear) : Int :=
  g.quantity - loanedQty g

/-- Model of `create_loan` (gear.py lines 393-438): reject with HTTP 400 when
`loan_data.quantity_loaned > available`, otherwise persist a new unreturned
loan for this gear. -/
def create_loan (g : Gear) (qty : Int) : Except String (Gear × GearLoan) :=
  if qty > quantityAvailable g then
    Except.error "Not enough available"
  else
    Except.ok
      ({ g with loans := g.loans ++ [{ quantity_loaned := qty, is_returned := false }] },
        { quantity_loaned := qty, is_returned := false })

/-! ## Subscription quota (src/backend/app/models/subscription.py,
src/backend/app/services/usage_tracker.py) -/

/-- A subscription row, reduced to the fields the quota logic reads.
`generations_used` is modelled as a plain `Int` (the code coalesces a NULL
counter to 0 before incrementing). -/
structure Subscription where
  plan : String
  status : String
  generations_used : Int
  learning_used : Int
deriving DecidableEq, Repr

/-- Model of the `generations` entry of `Subscription.PLAN_LIMITS` combined with
the `generation_limit` property (subscription.py lines 41-50): unknown plans
fall back to the free limits. -/
def planGenLimit (plan : String) : Int :=
  if plan = "free" then 2
  else if plan = "basic" then 15
  else if plan = "pro" then -1
  else if plan = "admin" then -1
  else 2

/-- Model of the `is_active` property: status in ("active", "trialing"). -/
def isActive (s : Subscription) : Bool :=
  s.status = "active" || s.status = "trialing"

/-- Model of `Subscription.can_generate` (subscription.py lines 60-69). -/
def can_generate (s : Subscription) : Bool :=
  if s.plan = "pro" || s.plan = "admin" then true
  else if !(isActive s) then false
  else if planGenLimit s.plan = -1 then true
  else decide (s.generations_used < planGenLimit s.plan)

/-- The payload of the HTTP 402 error raised by `check_generation_allowed`. -/
structure QuotaError where
  plan : String
  used : Int
  limit : Int
deriving DecidableEq, Repr

/-- Model of `check_generation_allowed` (usage_tracker.py lines 37-54): raise
HTTP 402 with the plan/used/limit payload exactly when `can_generate` is false. -/
def check_generation_allowed (s : Subscription) : Except QuotaError Subscription :=
  if can_generate s then Except.ok s
  else Except.error { plan := s.plan, used := s.generations_used, limit := planGenLimit s.plan }

/-- Model of `record_generation` (usage_tracker.py lines 77-81). -/
def record_generation (s : Subscription) : Subscription :=
  { s with generations_used := s.generations_used + 1 }

/-! ## Performer match scoring (src/backend/app/routers/setups.py lines 85-118, 148-156) -/

/-- Insert one performer type into the per-type count map, adding to the count
of an existing key. The map is kept sorted by key, so that Lean list equality
on these canonical maps coincides with Python dict equality (which ignores
insertion order), and the key list is duplicate-free. -/
def bumpCount : List (String × Int) → String → Int → List (String × Int)
  | [], k, v => [(k, v)]
  | (k', v') :: rest, k, v =>
    if k = k' then (k', v' + v) :: rest
    else if k < k' then (k, v) :: (k', v') :: rest
    else (k', v') :: bumpCount rest k v

/-- Reduce a performer list to its type-to-total-count map: the
`request_types` / `past_types` dicts built by `calculate_performer_match`. -/
def toCounts (ps : List Performer) : List (String × Int) :=
  ps.foldl (fun m p => bumpCount m p.ptype p.count) []

/-- The key-overlap ratio `len(common_types) / max(len(request_types), len(past_types))`
of `calculate_performer_match`, on the reduced maps. -/
def overlapRatio (r c : List (String × Int)) : ℚ :=
  (((r.map Prod.fst).filter (fun k => (c.map Prod.fst).contains k)).length : ℚ) /
    (max r.length c.length : ℚ)

/-- Model of `calculate_performer_match` (setups.py lines 85-118), with the
float scores written as the exact rationals they denote. -/
def calculate_performer_match (req past : List Performer) : String × ℚ :=
  if past = [] then ("none", 0)
  else if toCounts req = toCounts past then ("exact", 1)
  else if (toCounts req).map Prod.fst = (toCounts past).map Prod.fst then ("similar", 4/5)
  else if ((toCounts req).map Prod.fst).filter
      (fun k => ((toCounts past).map Prod.fst).contains k) ≠ [] then
    if overlapRatio (toCounts req) (toCounts past) ≥ 1/2 then
      ("partial", overlapRatio (toCounts req) (toCounts past) * (3/5))
    else ("none", 0)
  else ("none", 0)

/-- Modelled from the words of claim C6: the classification applied directly to
the reduced count maps R and C, with no special case for an empty candidate
list — `(exact, 1)` when `R = C`, `(similar, 0.8)` on equal key sets,
`(partial, overlap * 0.6)` when the key overlap ratio reaches 1/2, else
`(none, 0)`. -/
def specMatchClassify (r c : List (String × Int)) : String × ℚ :=
  if r = c then ("exact", 1)
  else if r.map Prod.fst = c.map Prod.fst then ("similar", 4/5)
  else if overlapRatio r c ≥ 1/2 then ("partial", overlapRatio r c * (3/5))
  else ("none", 0)

/-- Model of Python `setup.rating or 3` (setups.py line 151): `or` substitutes
the default both for a missing rating and for a zero one. -/
def ratingOrDefault (rating : Option Int) : Int :=
  match rating with
  | none => 3
  | some v => if v = 0 then 3 else v

/-- Model of `adjusted_score = score * (0.8 + (setup.rating or 3) * 0.04)`
(setups.py line 151). -/
def adjustedScore (score : ℚ) (rating : Option Int) : ℚ :=
  score * (4/5 + (ratingOrDefault rating : ℚ) * (1/25))

/-! ## JSON values and a model of json.loads -/

/-- Parsed JSON values. Numeric literals are kept as their raw lexeme: no claim
depends on numeric semantics, only on the shape of the parsed value. -/
inductive Json where
  | null : Json
  | jbool (b : Bool) : Json
  | num (lexeme : String) : Json
  | str (s : String) : Json
  | arr (elems : List Json) : Json
  | obj (fields : List (String × Json)) : Json
deriving Repr

/-- Whether a JSON value is an object — a Python dict after json.loads. -/
def Json.isObjB : Json → Bool
  | Json.obj _ => true
  | _ => false

/-- The whitespace characters skipped by the JSON grammar. -/
def isJsonWs (c : Char) : Bool :=
  c = ' ' || c = '\t' || c = '\n' || c = '\r'

/-- The characters stripped by Python str.strip (string whitespace). -/
def isPyWs (c : Char) : Bool :=
  c = ' ' || c = '\t' || c = '\n' || c = '\r' || c = '\x0b' || c = '\x0c'

def skipWs (cs : List Char) : List Char := cs.dropWhile isJsonWs

/-- Model of Python str.strip(): drop whitespace from both ends. -/
def stripChars (cs : List Char) : List Char :=
  ((cs.dropWhile isPyWs).reverse.dropWhile isPyWs).reverse

/-- The common single-character JSON string escapes (unicode escapes are not
modelled; the generator's payloads do not use them). -/
def escChar (c : Char) : Option Char :=
  if c = '"' then some '"'
  else if c = '\\' then some '\\'
  else if c = '/' then some '/'
  else if c = 'n' then some '\n'
  else if c = 't' then some '\t'
  else if c = 'r' then some '\r'
  else if c = 'b' then some '\x08'
  else if c = 'f' then some '\x0c'
  else none

/-- Parse the remainder of a JSON string literal (after the opening quote),
returning the decoded string and the input after the closing quote. -/
def parseStr : List Char → Except String (String × List Char)
  | [] => Except.error "Unterminated string"
  | c :: rest =>
    if c = '"' then Except.ok ("", rest)
    else if c = '\\' then
      match rest with
      | [] => Except.error "Unterminated string"
      | e :: rest2 =>
        match escChar e with
        | some ec =>
          match parseStr rest2 with
          | Except.ok (s, r) => Except.ok (String.mk (ec :: s.data), r)
          | Except.error msg => Except.error msg
        | none => Except.error "Invalid escape"
    else
      match parseStr rest with
      | Except.ok (s, r) => Except.ok (String.mk (c :: s.data), r)
      | Except.error msg => Except.error msg
termination_by cs => cs.length
decreasing_by all_goals simp_arith

/-- Characters that may continue a numeric lexeme. -/
def numChar (c : Char) : Bool :=
  c.isDigit || c = '-' || c = '+' || c = '.' || c = 'e' || c = 'E'

mutual

/-- Parse one JSON value; the fuel bounds recursion depth and is chosen large
enough in `jsonLoads` for any input of the given length. -/
def parseValue : Nat → List Char → Except String (Json × List Char)
  | 0, _ => Except.error "Nesting limit exceeded"
  | Nat.succ fuel, cs =>
    match skipWs cs with
    | [] => Except.error "Expecting value"
    | c :: rest =>
      if c = '\x7b' then
        match skipWs rest with
        | '\x7d' :: r2 => Except.ok (Json.obj [], r2)
        | r2 => parseMembers fuel r2
      else if c = '[' then
        match skipWs rest with
        | ']' :: r2 => Except.ok (Json.arr [], r2)
        | r2 => parseElems fuel r2
      else if c = '"' then
        match parseStr rest with
        | Except.ok (s, r) => Except.ok (Json.str s, r)
        | Except.error e => Except.error e
      else if ['n', 'u', 'l', 'l'].isPrefixOf (c :: rest) then
        Except.ok (Json.null, (c :: rest).drop 4)
      else if ['t', 'r', 'u', 'e'].isPrefixOf (c :: rest) then
        Except.ok (Json.jbool true, (c :: rest).drop 4)
      else if ['f', 'a', 'l', 's', 'e'].isPrefixOf (c :: rest) then
        Except.ok (Json.jbool false, (c :: rest).drop 5)
      else if c.isDigit || c = '-' then
        Except.ok (Json.num (String.mk ((c :: rest).takeWhile numChar)),
          (c :: rest).drop (((c :: rest).takeWhile numChar).length)
          )
      else Except.error "Expecting value"

/-- Parse the members of a JSON object after a first non-ws, non-brace
character has been seen. -/
def parseMembers : Nat → List Char → Except String (Json × List Char)
  | 0, _ => Except.error "Nesting limit exceeded"
  | Nat.succ fuel, cs =>
    match skipWs cs with
    | '"' :: rest =>
      match parseStr rest with
      | Except.error e => Except.error e
      | Except.ok (k, r1) =>
        match skipWs r1 with
        | ':' :: r2 =>
          match parseValue fuel r2 with
          | Except.error e => Except.error e
          | Except.ok (v, r3) =>
            match skipWs r3 with
            | ',' :: r4 =>
              match parseMembers fuel r4 with
              | Except.ok (Json.obj kvs, r5) => Except.ok (Json.obj ((k, v) :: kvs), r5)
              | Except.ok _ => Except.error "Expecting object"
              | Except.error e => Except.error e
            | '\x7d' :: r4 => Except.ok (Json.obj [(k, v)], r4)
            | _ => Except.error "Expecting delimiter"
        | _ => Except.error "Expecting colon delimiter"
    | _ => Except.error "Expecting property name"

/-- Parse the elements of a JSON array after a first non-ws, non-bracket
character has been seen. -/
def parseElems : Nat → List Char → Except String (Json × List Char)
  | 0, _ => Except.error "Nesting limit exceeded"
  | Nat.succ fuel, cs =>
    match parseValue fuel cs with
    | Except.error e => Except.error e
    | Except.ok (v, r1) =>
      match skipWs r1 with
      | ',' :: r2 =>
        match parseElems fuel r2 with
        | Except.ok (Json.arr vs, r3) => Except.ok (Json.arr (v :: vs), r3)
        | Except.ok _ => Except.error "Expecting array"
        | Except.error e => Except.error e
      | ']' :: r2 => Except.ok (Json.arr [v], r2)
      | _ => Except.error "Expecting delimiter"

end

/-- Model of Python json.loads on the payload shapes the generator emits:
objects, arrays, strings with the common backslash escapes, numeric lexemes,
booleans and null; trailing non-whitespace is rejected like json.loads'
"Extra data". -/
def jsonLoads (s : String) : Except String Json :=
  match parseValue (2 * s.data.length + 8) s.data with
  | Except.error e => Except.error e
  | Except.ok (v, rest) =>
    if skipWs rest = [] then Except.ok v else Except.error "Extra data"

/-! ## Fence extraction and normalization (setup_generator.py lines 580-610) -/

/-- All indices at which `pat` occurs as a contiguous substring of `cs`. -/
def occIdxs (pat cs : List Char) : List Nat :=
  (List.range (cs.length + 1)).filter (fun i => pat.isPrefixOf (cs.drop i))

/-- Exception values crossing the modelled try/except: json.JSONDecodeError is
a subclass of ValueError, so it is modelled as `valueError`; the
`setup_data.keys()` call on a non-dict raises `attributeError`. -/
inductive PyErr where
  | valueError (msg : String)
  | attributeError (msg : String)
deriving DecidableEq, Repr

/-- Model of Python str.index: position of the first occurrence, ValueError
when the substring is absent. -/
def pyIndex (hay pat : List Char) : Except PyErr Nat :=
  match occIdxs pat hay with
  | i :: _ => Except.ok i
  | [] => Except.error (PyErr.valueError "substring not found")

/-- Model of Python str.rindex: position of the last occurrence, ValueError
when the substring is absent. -/
def pyRIndex (hay pat : List Char) : Except PyErr Nat :=
  match (occIdxs pat hay).getLast? with
  | some i => Except.ok i
  | none => Except.error (PyErr.valueError "substring not found")

/-- Model of Python s[i:j] for nonnegative indices. -/
def pySlice (cs : List Char) (i j : Nat) : List Char :=
  (cs.drop i).take (j - i)

/-- Model of the fence-extraction prelude of `SetupGenerator.generate`
(setup_generator.py lines 583-592): if "```json" occurs, slice from just after
its first occurrence (`index + 7`) to the last occurrence of "```" (`rindex`)
and strip; else the same with a bare "```" fence (`index + 3`); else the raw
response. -/
def extractJsonTextE (response : String) : Except PyErr String :=
  if ((occIdxs ("```json".data) response.data).isEmpty = false) then
    match pyIndex response.data ("```json".data) with
    | Except.error e => Except.error e
    | Except.ok i =>
      match pyRIndex response.data ("```".data) with
      | Except.error e => Except.error e
      | Except.ok j => Except.ok (String.mk (stripChars (pySlice response.data (i + 7) j)))
  else if ((occIdxs ("```".data) response.data).isEmpty = false) then
    match pyIndex response.data ("```".data) with
    | Except.error e => Except.error e
    | Except.ok i =>
      match pyRIndex response.data ("```".data) with
      | Except.error e => Except.error e
      | Except.ok j => Except.ok (String.mk (stripChars (pySlice response.data (i + 3) j)))
  else Except.ok response

/-- Model of the degraded fallback dictionary (setup_generator.py lines
603-610): empty structured fields, the raw response (or a placeholder when the
response is empty, which is falsy in Python) as instructions, and the parse
error in the troubleshooting tips. -/
def degradedResult (raw : String) (errMsg : String) : Json :=
  Json.obj
    [("channel_config", Json.obj []),
     ("eq_settings", Json.obj []),
     ("compression_settings", Json.obj []),
     ("fx_settings", Json.obj []),
     ("instructions", Json.str (if raw = "" then "No response from Claude API" else raw)),
     ("troubleshooting_tips", Json.str ("Error parsing JSON response: " ++ errMsg))]

/-- Model of Python `setup_data.keys()`: the keys of a dict, and an
AttributeError ('... object has no attribute keys') on any other value. -/
def pyKeys : Json → Except PyErr (List String)
  | Json.obj kvs => Except.ok (kvs.map Prod.fst)
  | _ => Except.error (PyErr.attributeError "keys")

/-- The try block of the parse section of `SetupGenerator.generate`: extract
the fenced text, then json.loads it (a JSONDecodeError surfaces as a
ValueError); on success, line 596 logs `list(setup_data.keys())` before the
return, so a non-dict payload raises an AttributeError inside the try block. -/
def generateTryBody (response : String) : Except PyErr Json :=
  match extractJsonTextE response with
  | Except.error e => Except.error e
  | Except.ok jt =>
    match jsonLoads jt with
    | Except.ok v =>
      match pyKeys v with
      | Except.ok _ => Except.ok v
      | Except.error e => Except.error e
    | Except.error m => Except.error (PyErr.valueError m)

/-- Model of the parse-and-fallback tail of `SetupGenerator.generate`
(setup_generator.py lines 580-610): the except clause catches exactly
(json.JSONDecodeError, ValueError) and returns the degraded dictionary; any
other exception kind — in particular the AttributeError raised by line 596's
keys() call on a non-dict payload — propagates. -/
def normalize (response : String) : Except PyErr Json :=
  match generateTryBody response with
  | Except.ok v => Except.ok v
  | Except.error (PyErr.valueError m) => Except.ok (degradedResult response m)
  | Except.error e => Except.error e

/-- Modelled from the words of claim C3: the text strictly between the first
"```json" opening fence and the next "```" closing fence after it, when both
exist. -/
def specFencedBlock (response : String) : Option String :=
  match occIdxs ("```json".data) response.data with
  | i :: _ =>
    match occIdxs ("```".data) (response.data.drop (i + 7)) with
    | k :: _ => some (String.mk ((response.data.drop (i + 7)).take k))
    | [] => none
  | [] => none

/-! ## Setups, the generate endpoint and the refresh endpoint
(src/backend/app/routers/setups.py) -/

/-- A setup row, reduced to the fields read and written by the generate and
refresh endpoints. UUIDs and timestamps are modelled as `Nat`. -/
structure Setup where
  id : Nat
  location_id : Nat
  user_id : Nat
  event_name : Option String
  event_date : Option String
  performers : List Performer
  channel_config : Option Json
  eq_settings : Option Json
  compression_settings : Option Json
  fx_settings : Option Json
  instructions : Option String
  rating : Option Int
  created_at : Nat
deriving Repr

/-- A location row, reduced to the id and owner checked by the endpoints. -/
structure Location where
  id : Nat
  user_id : Nat
deriving DecidableEq, Repr

/-- The body of a POST /setups/generate request (`SetupGenerateRequest`). -/
structure GenRequest where
  location_id : Nat
  event_name : Option String
  event_date : Option String
  performers : List Performer
  force_generate : Bool
deriving Repr

/-- The parsed generator output as consumed through `setup_data.get(...)`:
a missing key yields `none` (and, for the refresh endpoint's instructions,
the empty-string default). -/
structure GenData where
  channel_config : Option Json
  eq_settings : Option Json
  compression_settings : Option Json
  fx_settings : Option Json
  instructions : Option String
deriving Repr

/-- The database state visible to the generate endpoint. -/
structure AppState where
  locations : List Location
  setups : List Setup
  sub : Subscription
deriving Repr

/-- The externally visible steps a request handler can perform, in order. -/
inductive Action where
  | queryLocation
  | queryPastSetups
  | queryGear
  | checkQuota
  | callGenerator
  | recordUsage
  | persistSetup
deriving DecidableEq, Repr

/-- The `ORDER BY rating DESC, created_at DESC` sort key used by the
history queries (rows reaching it always have a rating). -/
def setupOrder (a b : Setup) : Bool :=
  if a.rating.getD 0 = b.rating.getD 0 then decide (b.created_at ≤ a.created_at)
  else decide (b.rating.getD 0 < a.rating.getD 0)

/-- Model of the rated-history query of `generate_setup` (setups.py lines
252-258): all rated setups at the location, ordered by rating then recency,
limited to 5. -/
def pastSetupsForGenerate (setups : List Setup) (locId : Nat) : List Setup :=
  ((setups.filter (fun s => s.location_id == locId && s.rating.isSome)).mergeSort
    setupOrder).take 5

/-- Model of the refresh history query (setups.py lines 480-487): like the
generate query but additionally excluding the setup being refreshed
(`Setup.id != setup_id`). -/
def pastSetupsForRefresh (setups : List Setup) (locId : Nat) (sid : Nat) : List Setup :=
  ((setups.filter
      (fun s => s.location_id == locId && s.rating.isSome && s.id != sid)).mergeSort
    setupOrder).take 5

/-- Model of the generate endpoint `generate_setup` (setups.py lines 224-320).
The parsed output of the external generator is supplied as `gen`; `newId` and
`now` stand for the id and timestamp the database would assign. The last
component records the externally visible steps the endpoint performs, in
order: it queries the location (404 when absent or not owned), queries the
rated history and the gear inventory (both feed only the generator prompt),
invokes the generator, and persists the new setup — with no quota action
anywhere. -/
def generate_setup (userId : Nat) (req : GenRequest) (st : AppState) (gen : GenData)
    (newId : Nat) (now : Nat) : Except Nat Setup × AppState × List Action :=
  match (st.locations.filter
      (fun l => l.id == req.location_id && l.user_id == userId)).head? with
  | none => (Except.error 404, st, [Action.queryLocation])
  | some _ =>
    let newSetup : Setup :=
      { id := newId, location_id := req.location_id, user_id := userId,
        event_name := req.event_name, event_date := req.event_date,
        performers := req.performers,
        channel_config := gen.channel_config, eq_settings := gen.eq_settings,
        compression_settings := gen.compression_settings, fx_settings := gen.fx_settings,
        instructions := gen.instructions, rating := none, created_at := now }
    (Except.ok newSetup, { st with setups := st.setups ++ [newSetup] },
      [Action.queryLocation, Action.queryPastSetups, Action.queryGear,
        Action.callGenerator, Action.persistSetup])

/-- Model of the refresh update (setups.py lines 524-528): replace only the
four settings fields and the instructions, the latter prefixed with the
refresh marker carrying the regeneration time; every other column of the row
is left as it was. -/
def applyRefresh (s : Setup) (gen : GenData) (now : String) : Setup :=
  { s with
    channel_config := gen.channel_config,
    eq_settings := gen.eq_settings,
    compression_settings := gen.compression_settings,
    fx_settings := gen.fx_settings,
    instructions := some ("[Refreshed on " ++ now ++ "]\n\n" ++ gen.instructions.getD "") }

/-- A generator response with a labeled fenced block followed by prose and a
second fenced block — the shape on which "next closing fence" and "last
closing fence" disagree. -/
def exampleTwoBlocks : String :=
  "```json\n\x7b\"a\": 1\x7d\n```\nSee the extra block\n```\nmore\n```"

/-- A generate request from user 7 for their location 1 (claim C1's failing
input). -/
def exampleRequest : GenRequest :=
  { location_id := 1, event_name := some "Gala", event_date := none,
    performers := [{ ptype := "vocal", count := 1 }], force_generate := false }

/-- A database state in which user 7 owns location 1 and has exhausted the
free plan's 2-generation quota. -/
def exampleState : AppState :=
  { locations := [{ id := 1, user_id := 7 }], setups := [],
    sub := { plan := "free", status := "active", generations_used := 2, learning_used := 0 } }

/-- A parsed generator output for the failing run. -/
def exampleGen : GenData :=
  { channel_config := none, eq_settings := none, compression_settings := none,
    fx_settings := none, instructions := some "steps" }

/-! ## Helper lemmas -/

theorem isOk_ok {ε α : Type} (a : α) : (Except.ok a : Except ε α).isOk = true := rfl

theorem isOk_error {ε α : Type} (e : ε) : (Except.error e : Except ε α).isOk = false := rfl

theorem loaned_foldl_eq_sum (l : List GearLoan) (a : Int) :
    l.foldl (fun acc x => acc + x.quantity_loaned) a =
      a + (l.map GearLoan.quantity_loaned).sum := by
  induction l generalizing a with
  | nil => simp
  | cons x xs ih =>
    simp only [List.foldl_cons, List.map_cons, List.sum_cons, ih]
    ring

theorem loanedQty_eq_sum (g : Gear) :
    loanedQty g = ((g.loans.filter (fun l => !l.is_returned)).map GearLoan.quantity_loaned).sum := by
  simpa [loanedQty, activeLoans] using loaned_foldl_eq_sum (activeLoans g) 0

theorem check_isOk (s : Subscription) :
    (check_generation_allowed s).isOk = can_generate s := by
  unfold check_generation_allowed
  by_cases h : can_generate s <;> simp [h, isOk_ok, isOk_error]

theorem can_generate_iff (s : Subscription) :
    can_generate s = true ↔
      (s.plan = "pro" ∨ s.plan = "admin") ∨
        (isActive s = true ∧
          (planGenLimit s.plan = -1 ∨ s.generations_used < planGenLimit s.plan)) := by
  unfold can_generate
  by_cases h1 : s.plan = "pro" <;> by_cases h2 : s.plan = "admin" <;>
    by_cases h3 : isActive s <;> by_cases h4 : planGenLimit s.plan = -1 <;>
    simp [h1, h2, h3, h4]

theorem genLimit_neg_one (p : String) (h : planGenLimit p = -1) : p = "pro" ∨ p = "admin" := by
  by_cases h1 : p = "free"
  · simp [planGenLimit, h1] at h
  · by_cases h2 : p = "basic"
    · simp [planGenLimit, h1, h2] at h
    · by_cases h3 : p = "pro"
      · exact Or.inl h3
      · by_cases h4 : p = "admin"
        · exact Or.inr h4
        · simp [planGenLimit, h1, h2, h3, h4] at h

/-! ## Claim C2 -/

/-- Claim C2 counterexample: gear with owned quantity 2 and one unreturned loan
of 3 reports `quantity_available = -1` — a negative number, not the claimed
clamped 0. -/
theorem quantity_available_not_clamped :
    quantityAvailable { quantity := 2, loans := [{ quantity_loaned := 3, is_returned := false }] } = -1 ∧
    ¬ (0 : Int) ≤ -1 := by decide

/-- Claim C2 (amended): the reported `quantity_available` equals the owned
quantity minus the sum of `quantity_loaned` over unreturned loans with no
clamping, so it is nonnegative exactly when the unreturned loans do not exceed
the owned quantity (and negative otherwise). -/
theorem quantity_available_eq (g : Gear) :
    quantityAvailable g =
      g.quantity - ((g.loans.filter (fun l => !l.is_returned)).map GearLoan.quantity_loaned).sum ∧
    (0 ≤ quantityAvailable g ↔
      ((g.loans.filter (fun l => !l.is_returned)).map GearLoan.quantity_loaned).sum ≤ g.quantity) := by
  have h := loanedQty_eq_sum g
  constructor
  · simp [quantityAvailable, h]
  · simp only [quantityAvailable, h]
    omega

/-! ## Claim C10 -/

/-- Claim C10: `create_loan` fails (creating nothing) exactly when the requested
quantity exceeds the current availability; on success the new unreturned loan is
appended, the owned quantity is untouched, availability drops by exactly the
loaned quantity, and the resulting availability is never negative. -/
theorem create_loan_spec (g : Gear) (qty : Int) :
    ((create_loan g qty).isOk = false ↔ quantityAvailable g < qty) ∧
    (∀ g' l, create_loan g qty = Except.ok (g', l) →
      l = { quantity_loaned := qty, is_returned := false } ∧
      g'.loans = g.loans ++ [{ quantity_loaned := qty, is_returned := false }] ∧
      g'.quantity = g.quantity ∧
      quantityAvailable g' = quantityAvailable g - qty ∧
      0 ≤ quantityAvailable g') := by
  by_cases hq : quantityAvailable g < qty
  · constructor
    · simp [create_loan, hq, isOk_error]
    · intro g' l hok
      simp [create_loan, hq] at hok
  · constructor
    · simp [create_loan, hq, isOk_ok]
    · intro g' l hok
      simp only [create_loan, if_neg hq, Except.ok.injEq, Prod.mk.injEq] at hok
      obtain ⟨hg', hl⟩ := hok
      subst hg'
      have havail :
          quantityAvailable
              { quantity := g.quantity,
                loans := g.loans ++ [{ quantity_loaned := qty, is_returned := false }] } =
            quantityAvailable g - qty := by
        simp [quantityAvailable, loanedQty_eq_sum, List.filter_append]
        ring
      refine ⟨hl.symm, rfl, rfl, havail, ?_⟩
      rw [havail]
      omega

/-- Witness for claim C10 at a concrete input: loaning 2 of 2 owned units
succeeds and leaves availability 0. -/
theorem create_loan_spec_witness :
    0 ≤ quantityAvailable { quantity := 2, loans := [{ quantity_loaned := 2, is_returned := false }] } :=
  ((create_loan_spec { quantity := 2, loans := [] } 2).2
    { quantity := 2, loans := [{ quantity_loaned := 2, is_returned := false }] }
    { quantity_loaned := 2, is_returned := false } (by decide)).2.2.2.2

/-! ## Claim C7 -/

/-- Claim C7 counterexample: a canceled free-plan subscription with 1 of 2
generations used is under its limit, yet `check_generation_allowed` denies it —
so denial is not exactly "over the limit". -/
theorem quota_check_denies_inactive :
    (check_generation_allowed
      { plan := "free", status := "canceled", generations_used := 1, learning_used := 0 }).isOk = false ∧
    (1 : Int) < planGenLimit "free" := by decide

/-- Claim C7 (amended): for an active (or trialing) subscription the quota check
allows exactly when the plan limit is -1 or usage is strictly below it (so
2 of 2 is denied and 1 of 2 allowed); a plan with limit -1 is always allowed
regardless of usage or status; an inactive subscription on any other plan is
always denied even under its limit. -/
theorem check_generation_allowed_spec (s : Subscription) :
    (isActive s = true →
      ((check_generation_allowed s).isOk = true ↔
        (planGenLimit s.plan = -1 ∨ s.generations_used < planGenLimit s.plan))) ∧
    (planGenLimit s.plan = -1 → (check_generation_allowed s).isOk = true) ∧
    (isActive s = false → planGenLimit s.plan ≠ -1 → (check_generation_allowed s).isOk = false) := by
  refine ⟨?_, ?_, ?_⟩
  · intro hact
    rw [check_isOk, can_generate_iff]
    constructor
    · rintro ((h | h) | ⟨_, h⟩)
      · left
        simp [planGenLimit, h]
      · left
        simp [planGenLimit, h]
      · exact h
    · intro h
      exact Or.inr ⟨hact, h⟩
  · intro hlim
    rw [check_isOk, can_generate_iff]
    exact Or.inl (genLimit_neg_one s.plan hlim)
  · intro hact hlim
    rw [check_isOk]
    by_contra hc
    rw [Bool.not_eq_false] at hc
    rcases (can_generate_iff s).1 hc with (h | h) | ⟨ha, _⟩
    · exact hlim (by simp [planGenLimit, h])
    · exact hlim (by simp [planGenLimit, h])
    · rw [hact] at ha
      exact Bool.false_ne_true ha

/-- Witness for claim C7 at a concrete input: an active free-plan subscription
with 1 of 2 generations used is allowed. -/
theorem check_generation_allowed_spec_witness :
    (check_generation_allowed
      { plan := "free", status := "active", generations_used := 1, learning_used := 0 }).isOk = true :=
  ((check_generation_allowed_spec _).1 (by decide)).2 (Or.inr (by decide))

/-! ## Claim C6 -/

/-- Claim C6 counterexample: with both performer lists empty the reduced maps
are equal (both empty), but the code returns ("none", 0) through its
empty-candidate guard rather than the claimed ("exact", 1). -/
theorem match_empty_lists_not_exact :
    toCounts [] = toCounts [] ∧
    calculate_performer_match [] [] = ("none", 0) ∧
    (("none", (0 : ℚ)) : String × ℚ) ≠ ("exact", 1) := by
  refine ⟨rfl, ?_, by decide⟩
  simp [calculate_performer_match]

/-- Claim C6 (amended): for a nonempty candidate list the classification follows
the claimed rules on the reduced count maps exactly; an empty candidate list is
short-circuited to ("none", 0) before the maps are compared, even though both
maps are then empty and equal. -/
theorem calculate_performer_match_spec (req past : List Performer) (h : past ≠ []) :
    calculate_performer_match req past = specMatchClassify (toCounts req) (toCounts past) := by
  unfold calculate_performer_match specMatchClassify
  rw [if_neg h]
  by_cases h1 : toCounts req = toCounts past
  · rw [if_pos h1, if_pos h1]
  · rw [if_neg h1, if_neg h1]
    by_cases h2 : (toCounts req).map Prod.fst = (toCounts past).map Prod.fst
    · rw [if_pos h2, if_pos h2]
    · rw [if_neg h2, if_neg h2]
      by_cases h3 : ((toCounts req).map Prod.fst).filter
          (fun k => ((toCounts past).map Prod.fst).contains k) = []
      · rw [if_neg (not_not_intro h3)]
        have hov : overlapRatio (toCounts req) (toCounts past) = 0 := by
          rw [overlapRatio, h3]
          simp
        rw [hov, if_neg (by norm_num)]
      · rw [if_pos h3]

/-- Witness for claim C6 at a concrete input: a one-row vocal request against an
identical stored lineup classifies as an exact match both in the code and in
the claimed classification. -/
theorem calculate_performer_match_spec_witness :
    calculate_performer_match [{ ptype := "vocal", count := 1 }] [{ ptype := "vocal", count := 1 }] =
      specMatchClassify (toCounts [{ ptype := "vocal", count := 1 }])
        (toCounts [{ ptype := "vocal", count := 1 }]) :=
  calculate_performer_match_spec _ _ (by decide)

/-! ## Claim C8 -/

/-- Claim C8 counterexample: at base score 0 (the quality "none" branch) a
rating-5 candidate and a rating-3 candidate get the same adjusted score 0, so
the rating-5 score is not strictly higher. -/
theorem rating_boost_not_strict_at_zero :
    adjustedScore 0 (some 5) = adjustedScore 0 (some 3) := by
  norm_num [adjustedScore]

/-- Claim C8 (amended): the adjusted score ignores the match quality, and for
any positive base score a rating-5 candidate yields a strictly higher adjusted
score than an otherwise-identical rating-3 candidate (at base score 0 both
adjusted scores are 0). -/
theorem rating_boost_strict (score : ℚ) (h : 0 < score) :
    adjustedScore score (some 5) > adjustedScore score (some 3) := by
  have h5 : ((ratingOrDefault (some 5) : Int) : ℚ) = 5 := by norm_num [ratingOrDefault]
  have h3 : ((ratingOrDefault (some 3) : Int) : ℚ) = 3 := by norm_num [ratingOrDefault]
  simp only [adjustedScore, h5, h3]
  exact (mul_lt_mul_left h).2 (by norm_num)

/-- Witness for claim C8 at a concrete input: at base score 1 the rating-5
adjusted score strictly exceeds the rating-3 one. -/
theorem rating_boost_strict_witness :
    adjustedScore 1 (some 5) > adjustedScore 1 (some 3) :=
  rating_boost_strict 1 (by norm_num)

/-! ## Occurrence-index lemmas for the fence extraction -/

theorem occIdxs_pairwise (pat cs : List Char) : (occIdxs pat cs).Pairwise (· < ·) :=
  List.Pairwise.sublist (List.filter_sublist _) (List.pairwise_lt_range _)

theorem pairwise_head_le {i₀ : Nat} {rest : List Nat} (hp : (i₀ :: rest).Pairwise (· < ·))
    {x : Nat} (hx : x ∈ i₀ :: rest) : i₀ ≤ x := by
  rcases List.mem_cons.1 hx with h | h
  · exact Nat.le_of_eq h.symm
  · exact Nat.le_of_lt ((List.pairwise_cons.1 hp).1 x h)

theorem pairwise_le_getLast? : ∀ (l : List Nat), l.Pairwise (· < ·) →
    ∀ x ∈ l, ∀ m, l.getLast? = some m → x ≤ m
  | [], _, x, hx, m, hm => by simp at hx
  | [a], _, x, hx, m, hm => by
    simp at hx hm
    omega
  | a :: b :: t, hp, x, hx, m, hm => by
    rw [List.getLast?_cons_cons] at hm
    rcases List.mem_cons.1 hx with h | h
    · have hab : a < b := (List.pairwise_cons.1 hp).1 b (List.mem_cons_self _ _)
      have hbm : b ≤ m :=
        pairwise_le_getLast? (b :: t) (List.pairwise_cons.1 hp).2 b (List.mem_cons_self _ _) m hm
      omega
    · exact pairwise_le_getLast? (b :: t) (List.pairwise_cons.1 hp).2 x h m hm

theorem getLast?_isSome_of_ne_nil : ∀ (l : List Nat), l ≠ [] → ∃ m, l.getLast? = some m
  | [], h => absurd rfl h
  | [a], _ => ⟨a, rfl⟩
  | _ :: b :: t, _ => by
    rw [List.getLast?_cons_cons]
    exact getLast?_isSome_of_ne_nil (b :: t) (by simp)

theorem occIdxs_fence_of_fenceJson {cs : List Char} {i : Nat}
    (h : i ∈ occIdxs ("```json".data) cs) : i ∈ occIdxs ("```".data) cs := by
  simp only [occIdxs, List.mem_filter, List.mem_range] at h ⊢
  refine ⟨h.1, ?_⟩
  have h2 := List.isPrefixOf_iff_prefix.1 h.2
  have h0 : ("```".data : List Char) <+: ("```json".data : List Char) :=
    List.isPrefixOf_iff_prefix.1 (by decide)
  exact List.isPrefixOf_iff_prefix.2 (List.IsPrefix.trans h0 h2)

theorem extractJsonTextE_ok (response : String) :
    ∃ t, extractJsonTextE response = Except.ok t := by
  unfold extractJsonTextE pyIndex pyRIndex
  by_cases h1 : (occIdxs ("```json".data) response.data).isEmpty = false
  · rw [if_pos h1]
    obtain ⟨i₀, rest, hcons⟩ : ∃ i₀ rest,
        occIdxs ("```json".data) response.data = i₀ :: rest := by
      cases hocc : occIdxs ("```json".data) response.data with
      | nil => rw [hocc] at h1; simp at h1
      | cons a t => exact ⟨a, t, rfl⟩
    have hmem : i₀ ∈ occIdxs ("```".data) response.data :=
      occIdxs_fence_of_fenceJson (by rw [hcons]; exact List.mem_cons_self _ _)
    have hne : occIdxs ("```".data) response.data ≠ [] := by
      intro h
      rw [h] at hmem
      simp at hmem
    obtain ⟨m, hm⟩ := getLast?_isSome_of_ne_nil _ hne
    rw [hcons, hm]
    exact ⟨_, rfl⟩
  · rw [if_neg h1]
    by_cases h2 : (occIdxs ("```".data) response.data).isEmpty = false
    · rw [if_pos h2]
      obtain ⟨i₀, rest, hcons⟩ : ∃ i₀ rest,
          occIdxs ("```".data) response.data = i₀ :: rest := by
        cases hocc : occIdxs ("```".data) response.data with
        | nil => rw [hocc] at h2; simp at h2
        | cons a t => exact ⟨a, t, rfl⟩
      have hne : occIdxs ("```".data) response.data ≠ [] := by
        rw [hcons]
        simp
      obtain ⟨m, hm⟩ := getLast?_isSome_of_ne_nil _ hne
      rw [hm, hcons]
      exact ⟨_, rfl⟩
    · rw [if_neg h2]
      exact ⟨response, rfl⟩

/-! ## Claim C3 -/

/-- Claim C3 counterexample: on a response with a labeled block followed by a
second fenced block, the code slices up to the LAST closing fence (str.rindex),
so the parsed text swallows the prose and the second block; the claimed
"text between the first opening fence and the next closing fence" (even after
stripping) is a different string. -/
theorem fence_extraction_not_next_close :
    extractJsonTextE exampleTwoBlocks =
      Except.ok "\x7b\"a\": 1\x7d\n```\nSee the extra block\n```\nmore" ∧
    specFencedBlock exampleTwoBlocks = some "\n\x7b\"a\": 1\x7d\n" ∧
    ("\x7b\"a\": 1\x7d\n```\nSee the extra block\n```\nmore" : String) ≠ "\n\x7b\"a\": 1\x7d\n" ∧
    String.mk (stripChars ("\n\x7b\"a\": 1\x7d\n").data) = "\x7b\"a\": 1\x7d" ∧
    ("\x7b\"a\": 1\x7d\n```\nSee the extra block\n```\nmore" : String) ≠ "\x7b\"a\": 1\x7d" := by
  exact ⟨rfl, rfl, by decide, rfl, by decide⟩

/-- Claim C3 (amended): when the response contains a "```json" fence, the text
handed to the parser is the slice from just past the first occurrence of
"```json" to the LAST occurrence of "```" anywhere in the text, stripped of
surrounding whitespace — not the slice ending at the next closing fence. -/
theorem extract_first_open_last_close (s : String) (i j : Nat)
    (hi : i ∈ occIdxs ("```json".data) s.data)
    (hmin : ∀ k ∈ occIdxs ("```json".data) s.data, i ≤ k)
    (hj : j ∈ occIdxs ("```".data) s.data)
    (hmax : ∀ k ∈ occIdxs ("```".data) s.data, k ≤ j) :
    extractJsonTextE s =
      Except.ok (String.mk (stripChars ((s.data.drop (i + 7)).take (j - (i + 7))))) := by
  obtain ⟨i₀, rest, hcons⟩ : ∃ i₀ rest, occIdxs ("```json".data) s.data = i₀ :: rest := by
    cases hocc : occIdxs ("```json".data) s.data with
    | nil => rw [hocc] at hi; simp at hi
    | cons a t => exact ⟨a, t, rfl⟩
  have hne : (occIdxs ("```json".data) s.data).isEmpty = false := by
    rw [hcons]
    rfl
  have hi0 : i₀ = i := by
    have h1 : i₀ ≤ i := by
      have hp := occIdxs_pairwise ("```json".data) s.data
      rw [hcons] at hp
      exact pairwise_head_le hp (hcons ▸ hi)
    have h2 : i ≤ i₀ := hmin i₀ (by rw [hcons]; exact List.mem_cons_self _ _)
    omega
  have hjne : occIdxs ("```".data) s.data ≠ [] := by
    intro h
    rw [h] at hj
    simp at hj
  obtain ⟨m, hm⟩ := getLast?_isSome_of_ne_nil _ hjne
  have hmj : m = j := by
    have h1 : m ≤ j := hmax m (List.mem_of_mem_getLast? hm)
    have h2 : j ≤ m := pairwise_le_getLast? _ (occIdxs_pairwise _ _) j hj m hm
    omega
  unfold extractJsonTextE pyIndex pyRIndex
  rw [if_pos hne, hcons, hm, hi0, hmj]
  rfl

/-- Witness for claim C3 (amended) at a concrete input: a single properly
closed labeled block, whose first "```json" occurrence is at 0 and last "```"
occurrence at 17, extracts to the stripped block body. -/
theorem extract_first_open_last_close_witness :
    extractJsonTextE "```json\n\x7b\"a\": 1\x7d\n```" = Except.ok "\x7b\"a\": 1\x7d" :=
  (extract_first_open_last_close "```json\n\x7b\"a\": 1\x7d\n```" 0 17
    (by decide) (by decide) (by decide) (by decide)).trans (by rfl)

/-! ## Claim C4 -/

/-- Claim C4 counterexample: on the empty raw response (on which parsing fails)
the degraded result's instructions field is the placeholder
"No response from Claude API", not the raw text verbatim. -/
theorem degraded_empty_raw_not_verbatim :
    normalize "" =
      Except.ok (Json.obj
        [("channel_config", Json.obj []),
         ("eq_settings", Json.obj []),
         ("compression_settings", Json.obj []),
         ("fx_settings", Json.obj []),
         ("instructions", Json.str "No response from Claude API"),
         ("troubleshooting_tips", Json.str "Error parsing JSON response: Expecting value")]) ∧
    ("No response from Claude API" : String) ≠ "" := by
  exact ⟨rfl, by decide⟩

/-- Claim C4 (amended): whenever structured parsing of the (extracted) text
fails, the result is the degraded dictionary: all four structured fields empty,
instructions equal to the raw text verbatim when the raw text is non-empty
(with the fixed placeholder substituted for an empty raw text), and the
troubleshooting tips carrying the parse-failure notice with the underlying
error. -/
theorem normalize_degraded_spec (raw t e : String)
    (h1 : extractJsonTextE raw = Except.ok t) (h2 : jsonLoads t = Except.error e) :
    normalize raw =
      Except.ok (Json.obj
        [("channel_config", Json.obj []),
         ("eq_settings", Json.obj []),
         ("compression_settings", Json.obj []),
         ("fx_settings", Json.obj []),
         ("instructions",
           Json.str (if raw = "" then "No response from Claude API" else raw)),
         ("troubleshooting_tips", Json.str ("Error parsing JSON response: " ++ e))]) := by
  simp only [normalize, generateTryBody, h1, h2, degradedResult]

/-- Witness for claim C4 (amended) at a concrete input: plain prose fails to
parse and is carried verbatim into the degraded instructions field. -/
theorem normalize_degraded_spec_witness :
    normalize "not json" =
      Except.ok (Json.obj
        [("channel_config", Json.obj []),
         ("eq_settings", Json.obj []),
         ("compression_settings", Json.obj []),
         ("fx_settings", Json.obj []),
         ("instructions",
           Json.str (if ("not json" : String) = "" then "No response from Claude API" else "not json")),
         ("troubleshooting_tips", Json.str ("Error parsing JSON response: " ++ "Expecting value"))]) :=
  normalize_degraded_spec "not json" "not json" "Expecting value" rfl rfl

/-! ## Claim C5 -/

/-- Claim C5 counterexample: the raw text "3" parses as a JSON number, after
which line 596's `list(setup_data.keys())` — still inside the try block —
raises an AttributeError that the except (json.JSONDecodeError, ValueError)
clause does not catch: the normalization raises instead of returning a
result. -/
theorem normalize_raises_on_nondict :
    normalize "3" = Except.error (PyErr.attributeError "keys") ∧
    (Json.num "3").isObjB = false :=
  ⟨rfl, rfl⟩

/-- Claim C5 (amended): the fence extraction itself never raises (its index and
rindex calls are guarded), and for every string input exactly one of three
outcomes occurs: the extracted text parses to a dict, which is returned; or
parsing fails with a (JSONDecodeError-) ValueError, which the except clause
turns into the degraded dictionary; or the extracted text parses to a non-dict
payload, and the keys() logging call on the success path raises an
AttributeError that the except clause does not catch — so the normalization
returns a result dictionary in the first two cases but raises in the third,
and the claimed unconditional never-raises guarantee fails. -/
theorem normalize_total_cases (response : String) :
    ∃ t, extractJsonTextE response = Except.ok t ∧
      ((∃ kvs, jsonLoads t = Except.ok (Json.obj kvs) ∧
          normalize response = Except.ok (Json.obj kvs)) ∨
        (∃ e, jsonLoads t = Except.error e ∧
          normalize response = Except.ok (degradedResult response e)) ∨
        (∃ v, jsonLoads t = Except.ok v ∧ v.isObjB = false ∧
          normalize response = Except.error (PyErr.attributeError "keys"))) := by
  obtain ⟨t, ht⟩ := extractJsonTextE_ok response
  refine ⟨t, ht, ?_⟩
  cases h : jsonLoads t with
  | error m =>
    exact Or.inr (Or.inl ⟨m, rfl, by simp only [normalize, generateTryBody, ht, h]⟩)
  | ok v =>
    cases v with
    | obj kvs =>
      exact Or.inl ⟨kvs, rfl, by simp only [normalize, generateTryBody, ht, h, pyKeys]⟩
    | null =>
      exact Or.inr (Or.inr ⟨Json.null, rfl, rfl,
        by simp only [normalize, generateTryBody, ht, h, pyKeys]⟩)
    | jbool b =>
      exact Or.inr (Or.inr ⟨Json.jbool b, rfl, rfl,
        by simp only [normalize, generateTryBody, ht, h, pyKeys]⟩)
    | num s =>
      exact Or.inr (Or.inr ⟨Json.num s, rfl, rfl,
        by simp only [normalize, generateTryBody, ht, h, pyKeys]⟩)
    | str s =>
      exact Or.inr (Or.inr ⟨Json.str s, rfl, rfl,
        by simp only [normalize, generateTryBody, ht, h, pyKeys]⟩)
    | arr xs =>
      exact Or.inr (Or.inr ⟨Json.arr xs, rfl, rfl,
        by simp only [normalize, generateTryBody, ht, h, pyKeys]⟩)

/-! ## Claim C1 -/

/-- Claim C1 (code bug): on a generate request from a user whose free-plan
subscription has exhausted its 2-generation quota, the endpoint still reaches
the external generator — its step trace runs location query, history query,
gear query, generator call and persistence, contains no quota check and no
usage record, and leaves the stored usage counter untouched — even though
`can_generate` is false for that subscription. -/
theorem generate_endpoint_skips_quota_gate :
    can_generate exampleState.sub = false ∧
    (generate_setup 7 exampleRequest exampleState exampleGen 99 5).2.2 =
      [Action.queryLocation, Action.queryPastSetups, Action.queryGear,
        Action.callGenerator, Action.persistSetup] ∧
    (generate_setup 7 exampleRequest exampleState exampleGen 99 5).2.2.contains
      Action.checkQuota = false ∧
    (generate_setup 7 exampleRequest exampleState exampleGen 99 5).2.2.contains
      Action.recordUsage = false ∧
    (generate_setup 7 exampleRequest exampleState exampleGen 99 5).1.isOk = true ∧
    (generate_setup 7 exampleRequest exampleState exampleGen 99 5).2.1.sub =
      exampleState.sub := by
  refine ⟨rfl, rfl, rfl, rfl, rfl, rfl⟩

/-! ## Claim C9 -/

/-- Claim C9: refreshing a setup leaves the event metadata (name, date,
performers, location, owner), the id and the rating untouched; it replaces
exactly the four settings fields with the regenerated ones and sets the
instructions to the refresh marker (carrying the regeneration time) followed
by the regenerated instructions (empty-string default when absent); and the
history handed to the generator never contains the setup being refreshed. -/
theorem refresh_setup_spec (s : Setup) (gen : GenData) (now : String) (db : List Setup) :
    (applyRefresh s gen now).event_name = s.event_name ∧
    (applyRefresh s gen now).event_date = s.event_date ∧
    (applyRefresh s gen now).performers = s.performers ∧
    (applyRefresh s gen now).location_id = s.location_id ∧
    (applyRefresh s gen now).user_id = s.user_id ∧
    (applyRefresh s gen now).id = s.id ∧
    (applyRefresh s gen now).rating = s.rating ∧
    (applyRefresh s gen now).created_at = s.created_at ∧
    (applyRefresh s gen now).channel_config = gen.channel_config ∧
    (applyRefresh s gen now).eq_settings = gen.eq_settings ∧
    (applyRefresh s gen now).compression_settings = gen.compression_settings ∧
    (applyRefresh s gen now).fx_settings = gen.fx_settings ∧
    (applyRefresh s gen now).instructions =
      some ("[Refreshed on " ++ now ++ "]\n\n" ++ gen.instructions.getD "") ∧
    (pastSetupsForRefresh db s.location_id s.id).all (fun t => t.id != s.id) = true := by
  refine ⟨rfl, rfl, rfl, rfl, rfl, rfl, rfl, rfl, rfl, rfl, rfl, rfl, rfl, ?_⟩
  rw [List.all_eq_true]
  intro t ht
  have ht1 : t ∈ (db.filter
      (fun u => u.location_id == s.location_id && u.rating.isSome && u.id != s.id)).mergeSort
      setupOrder :=
    List.mem_of_mem_take ht
  have ht2 := List.mem_mergeSort.1 ht1
  have ht3 := List.of_mem_filter ht2
  simp only [Bool.and_eq_true] at ht3
  exact ht3.2

end SERunner
